import Mathlib

/-!
Shallow embedding of the Pico W BLE gate-controller firmware
(`src/main.py`): the RSSI-to-blink-interval mapper, the connection
registry, the BLE event handler (connect / disconnect / write), the
main-loop blink-scheduler tick, and the shutdown routine.

Strings are modelled with Lean `String`; the Python string operations
used by the firmware (`strip`, `lower`, `split(':')`, `int(...)`,
`startswith`) are given explicit executable models below so that all
definitions evaluate inside the kernel.
-/

/-- One entry of the `connected_devices` dictionary: the peer address
string and the display name. -/
structure ConnInfo where
  addr : String
  name : String
deriving DecidableEq, Repr

/-- The process-wide mutable state of the firmware: the three output
pin levels (`led`, `relay_pin`, `buzzer_pin`), the monitoring flag
`rssi_blink_active`, the last reported reading `current_rssi`, the
connection dictionary `connected_devices`, and the two main-loop
variables `last_blink_time_ms` and `current_blink_interval_ms`. -/
structure DeviceState where
  led : Bool
  relay_pin : Bool
  buzzer_pin : Bool
  rssi_blink_active : Bool
  current_rssi : Int
  connected_devices : List (Nat × ConnInfo)
  last_blink_time_ms : Int
  current_blink_interval_ms : Int
deriving DecidableEq, Repr

/-- The firmware's startup state: LED driven low, monitoring off,
default reading -60 dBm, empty connection dictionary, loop variables
`last_blink_time_ms = 0` and `current_blink_interval_ms = 400`. -/
def init_state : DeviceState :=
  { led := false
    relay_pin := false
    buzzer_pin := false
    rssi_blink_active := false
    current_rssi := -60
    connected_devices := []
    last_blink_time_ms := 0
    current_blink_interval_ms := 400 }

/-- Membership test of the `connected_devices` dictionary (`in`). -/
def dictContains (d : List (Nat × ConnInfo)) (k : Nat) : Bool :=
  d.any (fun p => p.1 == k)

/-- Insertion into the `connected_devices` dictionary (`d[k] = v`),
overwriting any existing entry for the same handle. -/
def dictInsert (d : List (Nat × ConnInfo)) (k : Nat) (v : ConnInfo) :
    List (Nat × ConnInfo) :=
  (k, v) :: d.filter (fun p => p.1 != k)

/-- Deletion from the `connected_devices` dictionary (`del d[k]`). -/
def dictRemove (d : List (Nat × ConnInfo)) (k : Nat) : List (Nat × ConnInfo) :=
  d.filter (fun p => p.1 != k)

/-- The fixed RSSI table of `rssi_to_blink_interval`, listed in the
descending-threshold order produced by `sorted(rssi_map.keys(),
reverse=True)`. -/
def rssi_map : List (Int × Int) :=
  [(-30, 25), (-35, 50), (-40, 75), (-45, 100), (-50, 150),
   (-60, 300), (-70, 600), (-80, 1000), (-90, 1500)]

/-- Convert RSSI to blink interval in milliseconds: scan the thresholds
from strongest to weakest and return the interval of the first
threshold the reading is greater than or equal to; if the reading is
worse than -90, use the slowest blink (1500). -/
def rssi_to_blink_interval (rssi : Int) : Int :=
  match rssi_map.find? (fun p => rssi ≥ p.1) with
  | some p => p.2
  | none => 1500

/-- Update current RSSI value from the app (`update_rssi`). -/
def update_rssi (s : DeviceState) (new_rssi : Int) : DeviceState :=
  { s with current_rssi := new_rssi }

/-- Start RSSI-based LED blinking (`start_rssi_monitoring`). -/
def start_rssi_monitoring (s : DeviceState) : DeviceState :=
  { s with rssi_blink_active := true }

/-- Stop RSSI-based LED blinking (`stop_rssi_monitoring`): clears the
flag and drives the LED low. -/
def stop_rssi_monitoring (s : DeviceState) : DeviceState :=
  { s with rssi_blink_active := false, led := false }

/-- One call of `update_rssi_blink`: when monitoring is inactive it
returns the default 400 ms interval without touching the LED; when
active it toggles the LED and returns the interval for the current
reading. -/
def update_rssi_blink (s : DeviceState) : DeviceState × Int :=
  if !s.rssi_blink_active then
    (s, 400)
  else
    let interval_ms := rssi_to_blink_interval s.current_rssi
    ({ s with led := !s.led }, interval_ms)

/-- Lower-case hexadecimal digit for values 0..15. -/
def hexDigit (n : Nat) : Char :=
  if n < 10 then Char.ofNat (48 + n) else Char.ofNat (87 + n)

/-- Model of the format `'%02x' % b` for one address byte (bytes are
below 256, hence exactly two hex digits). -/
def byteToHex (b : Nat) : String :=
  String.mk [hexDigit (b / 16 % 16), hexDigit (b % 16)]

/-- Join a list of strings with a separator between consecutive
elements, as Python `sep.join(parts)`. -/
def joinWith (sep : String) : List String → String
  | [] => ""
  | [x] => x
  | x :: y :: rest => x ++ sep ++ joinWith sep (y :: rest)

/-- Convert address bytes to a colon-separated hex string
(`get_device_addr_string`). -/
def get_device_addr_string (addr_bytes : List Nat) : String :=
  joinWith ":" (addr_bytes.map byteToHex)

/-- LED welcome sequence played on connect (`welcome_sequence`): five
pulses, each driving the LED high and then low, so the LED always ends
low. -/
def welcome_sequence (s : DeviceState) : DeviceState :=
  (List.range 5).foldl
    (fun st _ =>
      let st1 := { st with led := true }
      { st1 with led := false })
    s

/-- Model of Python `str.strip()`: drop leading and trailing
whitespace. -/
def py_strip (s : String) : String :=
  String.mk (((s.toList.dropWhile Char.isWhitespace).reverse.dropWhile
    Char.isWhitespace).reverse)

/-- Model of Python `str.lower()` on ASCII command text. -/
def py_lower (s : String) : String :=
  String.mk (s.toList.map Char.toLower)

/-- Split a character list at every occurrence of the separator
character. -/
def splitOnChar (sep : Char) : List Char → List (List Char)
  | [] => [[]]
  | c :: rest =>
    let r := splitOnChar sep rest
    if c = sep then
      [] :: r
    else
      match r with
      | [] => [[c]]
      | g :: gs => (c :: g) :: gs

/-- Model of Python `str.split(sep)` for a one-character separator, as
used by `command.split(':')`. -/
def py_split (s : String) (sep : Char) : List String :=
  (splitOnChar sep s.toList).map String.mk

/-- Model of Python `str.startswith(pre)`. -/
def py_startswith (s pre : String) : Bool :=
  pre.toList.isPrefixOf s.toList

/-- Decimal value of a digit list (most significant first). -/
def digitsVal (cs : List Char) : Nat :=
  cs.foldl (fun acc c => acc * 10 + (c.toNat - 48)) 0

/-- Model of Python `int(str)`: strip surrounding whitespace, accept an
optional sign followed by one or more decimal digits, and fail
(`ValueError`, here `none`) on anything else. -/
def pyIntParse (str : String) : Option Int :=
  match (py_strip str).toList with
  | [] => none
  | c :: rest =>
    if c = '-' then
      if rest ≠ [] ∧ rest.all Char.isDigit then some (-(digitsVal rest : Int))
      else none
    else if c = '+' then
      if rest ≠ [] ∧ rest.all Char.isDigit then some (digitsVal rest)
      else none
    else if (c :: rest).all Char.isDigit then some (digitsVal (c :: rest))
    else none

/-- The command dispatch of the write branch of `ble_handler`, applied
to the already stripped and lower-cased command text: returns the
mutated device state and the status token sent back to the peer. -/
def interpret_command (s : DeviceState) (command : String) :
    DeviceState × String :=
  if command = "1" ∨ command = "on" then
    let s1 := stop_rssi_monitoring s
    ({ s1 with led := true }, "on")
  else if command = "0" ∨ command = "off" then
    let s1 := stop_rssi_monitoring s
    ({ s1 with led := false }, "off")
  else if command = "toggle" then
    let s1 := stop_rssi_monitoring s
    let s2 := { s1 with led := !s1.led }
    (s2, if s2.led then "on" else "off")
  else if command = "unlock" then
    ({ s with relay_pin := true }, "unlocked")
  else if command = "lock" then
    ({ s with relay_pin := false }, "locked")
  else if command = "start_rssi" then
    (start_rssi_monitoring s, "rssi_started")
  else if command = "stop_rssi" then
    (stop_rssi_monitoring s, "rssi_stopped")
  else if py_startswith command "rssi:" then
    match pyIntParse ((py_split command ':').getD 1 "") with
    | some rssi_value =>
        (update_rssi s rssi_value, "rssi_updated:" ++ toString rssi_value)
    | none => (s, "rssi_error")
  else
    (s, "unknown")

/-- The transport events delivered to `ble_handler`.  The write event
carries the UTF-8 decoded characteristic value; the firmware registers
a single characteristic, so the source's `value_handle == led_handle`
test always holds for it. -/
inductive BleEvent where
  | connect (conn_handle : Nat) (addr : List Nat)
  | disconnect (conn_handle : Nat)
  | write (conn_handle : Nat) (value : String)
deriving DecidableEq, Repr

/-- The BLE IRQ handler `ble_handler`: returns the new device state and
the list of notifications sent (handle, payload).  Connect registers
the peer, plays the welcome sequence and notifies `connected`;
disconnect of a registered handle stops monitoring and removes the
entry; a write from a registered handle strips and lower-cases the
value and dispatches it through the command interpreter, notifying the
status back; a write from an unregistered handle is dropped. -/
def ble_handler (s : DeviceState) (ev : BleEvent) :
    DeviceState × List (Nat × String) :=
  match ev with
  | .connect conn_handle addr =>
      let addr_str := get_device_addr_string addr
      let d1 := dictInsert s.connected_devices conn_handle ⟨addr_str, "Phone"⟩
      let s1 := { s with connected_devices := d1 }
      let s2 := welcome_sequence s1
      (s2, [(conn_handle, "connected")])
  | .disconnect conn_handle =>
      if dictContains s.connected_devices conn_handle then
        let s1 := stop_rssi_monitoring s
        ({ s1 with connected_devices := dictRemove s1.connected_devices conn_handle }, [])
      else
        (s, [])
  | .write conn_handle value =>
      if dictContains s.connected_devices conn_handle then
        let command := py_lower (py_strip value)
        let r := interpret_command s command
        (r.1, [(conn_handle, r.2)])
      else
        (s, [])

/-- Signed difference of millisecond tick counters, the idealisation of
`time.ticks_diff` over unbounded counters. -/
def ticks_diff (a b : Int) : Int := a - b

/-- One iteration of the blink-scheduler part of the main loop: when
monitoring is active and the connection dictionary is non-empty,
refresh `current_blink_interval_ms` from the current reading and, if
the elapsed ticks since the last toggle reach that interval, toggle
the LED via `update_rssi_blink` and record the new timestamp. -/
def main_loop_tick (s : DeviceState) (current_time_ms : Int) : DeviceState :=
  if s.rssi_blink_active ∧ s.connected_devices ≠ [] then
    let s1 := { s with current_blink_interval_ms := rssi_to_blink_interval s.current_rssi }
    if ticks_diff current_time_ms s1.last_blink_time_ms ≥
        s1.current_blink_interval_ms then
      let s2 := (update_rssi_blink s1).1
      { s2 with last_blink_time_ms := current_time_ms }
    else
      s1
  else
    s

/-- Run a sequence of BLE events from the startup state. -/
def run_events (evs : List BleEvent) : DeviceState :=
  evs.foldl (fun s ev => (ble_handler s ev).1) init_state

/-- The `KeyboardInterrupt` shutdown routine: stop monitoring and drive
the LED, relay and buzzer pins low. -/
def shutdown_handler (s : DeviceState) : DeviceState :=
  let s1 := stop_rssi_monitoring s
  { s1 with led := false, relay_pin := false, buzzer_pin := false }

/-- A connected state with the LED lit and monitoring active, used to
exercise the explicit LED commands. -/
def toggle_demo_state : DeviceState := { init_state with
  led := true
  rssi_blink_active := true
  connected_devices := [(1, ⟨"aa:bb:cc:dd:ee:ff", "Phone"⟩)] }

/-- A connected state with default reading -60, used to exercise the
`rssi:` command. -/
def rssi_demo_state : DeviceState := { init_state with
  connected_devices := [(1, ⟨"aa:bb:cc:dd:ee:ff", "Phone"⟩)] }

/-- A connected state with monitoring active and the LED dark, used to
exercise the scheduler tick. -/
def blink_demo_state : DeviceState := { init_state with
  rssi_blink_active := true
  connected_devices := [(2, ⟨"11:22:33:44:55:66", "Phone"⟩)] }

/-- A connected state with monitoring active and the LED lit, used to
exercise the disconnect of the last connection. -/
def last_disc_demo_state : DeviceState := { init_state with
  led := true
  rssi_blink_active := true
  connected_devices := [(3, ⟨"77:88:99:aa:bb:cc", "Phone"⟩)] }

/-- Closed form of the mapper: the nested interval tests matching the
descending scan of the threshold table. -/
theorem rssi_to_blink_interval_eq (r : Int) :
    rssi_to_blink_interval r =
      if r ≥ -30 then 25
      else if r ≥ -35 then 50
      else if r ≥ -40 then 75
      else if r ≥ -45 then 100
      else if r ≥ -50 then 150
      else if r ≥ -60 then 300
      else if r ≥ -70 then 600
      else if r ≥ -80 then 1000
      else 1500 := by
  unfold rssi_to_blink_interval rssi_map
  by_cases h1 : r ≥ (-30 : Int)
  · rw [List.find?_cons_of_pos _ (by simpa using h1), if_pos h1]
  rw [List.find?_cons_of_neg _ (by simpa using h1), if_neg h1]
  by_cases h2 : r ≥ (-35 : Int)
  · rw [List.find?_cons_of_pos _ (by simpa using h2), if_pos h2]
  rw [List.find?_cons_of_neg _ (by simpa using h2), if_neg h2]
  by_cases h3 : r ≥ (-40 : Int)
  · rw [List.find?_cons_of_pos _ (by simpa using h3), if_pos h3]
  rw [List.find?_cons_of_neg _ (by simpa using h3), if_neg h3]
  by_cases h4 : r ≥ (-45 : Int)
  · rw [List.find?_cons_of_pos _ (by simpa using h4), if_pos h4]
  rw [List.find?_cons_of_neg _ (by simpa using h4), if_neg h4]
  by_cases h5 : r ≥ (-50 : Int)
  · rw [List.find?_cons_of_pos _ (by simpa using h5), if_pos h5]
  rw [List.find?_cons_of_neg _ (by simpa using h5), if_neg h5]
  by_cases h6 : r ≥ (-60 : Int)
  · rw [List.find?_cons_of_pos _ (by simpa using h6), if_pos h6]
  rw [List.find?_cons_of_neg _ (by simpa using h6), if_neg h6]
  by_cases h7 : r ≥ (-70 : Int)
  · rw [List.find?_cons_of_pos _ (by simpa using h7), if_pos h7]
  rw [List.find?_cons_of_neg _ (by simpa using h7), if_neg h7]
  by_cases h8 : r ≥ (-80 : Int)
  · rw [List.find?_cons_of_pos _ (by simpa using h8), if_pos h8]
  rw [List.find?_cons_of_neg _ (by simpa using h8), if_neg h8]
  by_cases h9 : r ≥ (-90 : Int)
  · rw [List.find?_cons_of_pos _ (by simpa using h9)]
  rw [List.find?_cons_of_neg _ (by simpa using h9)]
  rfl

/-- C1: for every reading r with r ≥ -90, `rssi_to_blink_interval`
returns exactly the period paired with the greatest table threshold t
such that t ≤ r. -/
theorem C1_mapper_greatest_threshold (r : Int) (h : -90 ≤ r) :
    ∃ q ∈ rssi_map, q.1 ≤ r ∧ rssi_to_blink_interval r = q.2 ∧
      ∀ q2 ∈ rssi_map, q2.1 ≤ r → q2.1 ≤ q.1 := by
  by_cases h30 : -30 ≤ r
  · refine ⟨(-30, 25), by decide, h30, ?_, ?_⟩
    · rw [rssi_to_blink_interval_eq, if_pos h30]
    · intro q2 hq2 _
      fin_cases hq2 <;> decide
  · have hub : r ≤ -31 := by omega
    interval_cases r <;> decide

/-- Witness for C1 at the concrete reading -72. -/
theorem C1_mapper_greatest_threshold_witness :
    (-90 : Int) ≤ -72 ∧
    (∃ q ∈ rssi_map, q.1 ≤ (-72 : Int) ∧ rssi_to_blink_interval (-72) = q.2 ∧
      ∀ q2 ∈ rssi_map, q2.1 ≤ (-72 : Int) → q2.1 ≤ q.1) :=
  ⟨by decide, C1_mapper_greatest_threshold (-72) (by decide)⟩

set_option maxHeartbeats 2000000 in
/-- C2: the mapper is strictly positive everywhere, monotonically
non-increasing in the reading, and equal to 1500 below -90. -/
theorem C2_mapper_positive_monotone_floor :
    (∀ r : Int, 0 < rssi_to_blink_interval r) ∧
    (∀ r1 r2 : Int, r1 ≤ r2 →
      rssi_to_blink_interval r1 ≥ rssi_to_blink_interval r2) ∧
    (∀ r : Int, r < -90 → rssi_to_blink_interval r = 1500) := by
  refine ⟨?_, ?_, ?_⟩
  · intro r
    rw [rssi_to_blink_interval_eq]
    split_ifs <;> omega
  · intro r1 r2 h
    rw [rssi_to_blink_interval_eq r1, rssi_to_blink_interval_eq r2]
    split_ifs <;> omega
  · intro r h
    rw [rssi_to_blink_interval_eq]
    split_ifs <;> omega

/-- Witness for C2 at the concrete readings -55, -100 versus -20,
and -95. -/
theorem C2_mapper_positive_monotone_floor_witness :
    0 < rssi_to_blink_interval (-55) ∧
    rssi_to_blink_interval (-100) ≥ rssi_to_blink_interval (-20) ∧
    rssi_to_blink_interval (-95) = 1500 :=
  ⟨C2_mapper_positive_monotone_floor.1 (-55),
   C2_mapper_positive_monotone_floor.2.1 (-100) (-20) (by decide),
   C2_mapper_positive_monotone_floor.2.2 (-95) (by decide)⟩

/-- C3: on a scheduler tick, the LED is toggled and the blink timestamp
is set to the current time exactly when monitoring is active, at least
one connection is registered, and the elapsed ticks since the last
toggle reach the interval mapped from the current reading; in every
other case the tick leaves the LED and the timestamp unchanged. -/
theorem C3_tick_toggle_iff (s : DeviceState) (current_time_ms : Int) :
    ((s.rssi_blink_active = true ∧ s.connected_devices ≠ [] ∧
        ticks_diff current_time_ms s.last_blink_time_ms ≥
          rssi_to_blink_interval s.current_rssi) →
      ((main_loop_tick s current_time_ms).led = !s.led ∧
        (main_loop_tick s current_time_ms).last_blink_time_ms = current_time_ms)) ∧
    (¬(s.rssi_blink_active = true ∧ s.connected_devices ≠ [] ∧
        ticks_diff current_time_ms s.last_blink_time_ms ≥
          rssi_to_blink_interval s.current_rssi) →
      ((main_loop_tick s current_time_ms).led = s.led ∧
        (main_loop_tick s current_time_ms).last_blink_time_ms = s.last_blink_time_ms)) := by
  by_cases ha : s.rssi_blink_active = true
  · by_cases hne : s.connected_devices = []
    · constructor
      · rintro ⟨-, hne2, -⟩
        exact absurd hne hne2
      · intro _
        constructor <;> simp [main_loop_tick, hne]
    · by_cases hel : ticks_diff current_time_ms s.last_blink_time_ms ≥
          rssi_to_blink_interval s.current_rssi
      · constructor
        · intro _
          constructor <;> simp [main_loop_tick, update_rssi_blink, ha, hne, hel]
        · intro hc
          exact absurd ⟨ha, hne, hel⟩ hc
      · constructor
        · rintro ⟨-, -, hel2⟩
          exact absurd hel2 hel
        · intro _
          constructor <;> simp [main_loop_tick, update_rssi_blink, ha, hne, hel]
  · constructor
    · rintro ⟨ha2, -, -⟩
      exact absurd ha2 ha
    · intro _
      have ha3 : s.rssi_blink_active = false := by
        cases hb : s.rssi_blink_active
        · rfl
        · exact absurd hb ha
      constructor <;> simp [main_loop_tick, ha3]

/-- Witness for C3 at a concrete active connected state whose elapsed
ticks exceed the mapped interval. -/
theorem C3_tick_toggle_iff_witness :
    (main_loop_tick blink_demo_state 1000).led = !blink_demo_state.led ∧
    (main_loop_tick blink_demo_state 1000).last_blink_time_ms = 1000 :=
  (C3_tick_toggle_iff blink_demo_state 1000).1 (by decide)

/-- The welcome sequence always ends with the LED driven low and
changes nothing else. -/
theorem welcome_sequence_eq (s : DeviceState) :
    welcome_sequence s = { s with led := false } := rfl

/-- No command mutates the connection dictionary. -/
theorem interpret_command_connected_devices (s : DeviceState) (c : String) :
    (interpret_command s c).1.connected_devices = s.connected_devices := by
  unfold interpret_command
  split_ifs <;> try rfl
  split <;> rfl

/-- One handler step preserves the invariant that an empty connection
dictionary forces monitoring off. -/
theorem ble_handler_registry_inv (s : DeviceState) (ev : BleEvent)
    (hs : s.connected_devices = [] → s.rssi_blink_active = false) :
    (ble_handler s ev).1.connected_devices = [] →
    (ble_handler s ev).1.rssi_blink_active = false := by
  cases ev with
  | connect conn_handle addr =>
    intro hemp
    simp only [ble_handler, welcome_sequence_eq, dictInsert] at hemp
    exact (List.cons_ne_nil _ _ hemp).elim
  | disconnect conn_handle =>
    by_cases hc : dictContains s.connected_devices conn_handle = true
    · intro _
      simp [ble_handler, hc, stop_rssi_monitoring]
    · intro hemp
      simp only [ble_handler, if_neg hc] at hemp ⊢
      exact hs hemp
  | write conn_handle value =>
    by_cases hc : dictContains s.connected_devices conn_handle = true
    · intro hemp
      simp only [ble_handler, if_pos hc] at hemp
      rw [interpret_command_connected_devices] at hemp
      rw [hemp] at hc
      simp [dictContains] at hc
    · intro hemp
      simp only [ble_handler, if_neg hc] at hemp ⊢
      exact hs hemp

/-- Folding any event sequence preserves the empty-registry
invariant. -/
theorem foldl_registry_inv (evs : List BleEvent) :
    ∀ s : DeviceState, (s.connected_devices = [] → s.rssi_blink_active = false) →
      ((evs.foldl (fun t ev => (ble_handler t ev).1) s).connected_devices = [] →
        (evs.foldl (fun t ev => (ble_handler t ev).1) s).rssi_blink_active = false) := by
  induction evs with
  | nil => intro s hs; exact hs
  | cons e rest ih =>
    intro s hs
    exact ih (ble_handler s e).1 (ble_handler_registry_inv s e hs)

/-- C4: in every state reachable by connect, disconnect and command
events, an empty connection registry forces `rssi_blink_active` off;
and disconnecting the last registered connection while monitoring is
active leaves monitoring off and the LED dark. -/
theorem C4_empty_registry_monitoring_off :
    (∀ evs : List BleEvent,
      (run_events evs).connected_devices = [] →
      (run_events evs).rssi_blink_active = false) ∧
    (∀ (s : DeviceState) (conn_handle : Nat) (info : ConnInfo),
      s.connected_devices = [(conn_handle, info)] → s.rssi_blink_active = true →
      (ble_handler s (.disconnect conn_handle)).1.rssi_blink_active = false ∧
      (ble_handler s (.disconnect conn_handle)).1.led = false) := by
  constructor
  · intro evs
    exact foldl_registry_inv evs init_state (fun _ => rfl)
  · intro s conn_handle info hreg _
    have hc : dictContains s.connected_devices conn_handle = true := by
      rw [hreg]
      simp [dictContains]
    constructor <;> simp [ble_handler, hc, stop_rssi_monitoring]

/-- Witness for C4 at a concrete event sequence and a concrete
single-connection active state. -/
theorem C4_empty_registry_monitoring_off_witness :
    (run_events [BleEvent.connect 1 [16], BleEvent.disconnect 1]).rssi_blink_active = false ∧
    (ble_handler last_disc_demo_state (.disconnect 3)).1.rssi_blink_active = false ∧
    (ble_handler last_disc_demo_state (.disconnect 3)).1.led = false :=
  ⟨C4_empty_registry_monitoring_off.1 _ (by decide),
   (C4_empty_registry_monitoring_off.2 last_disc_demo_state 3
      ⟨"77:88:99:aa:bb:cc", "Phone"⟩ (by decide) (by decide)).1,
   (C4_empty_registry_monitoring_off.2 last_disc_demo_state 3
      ⟨"77:88:99:aa:bb:cc", "Phone"⟩ (by decide) (by decide)).2⟩

/-- C5 fails on the code: with the LED lit, the `toggle` command does
not invert the LED level, because `stop_rssi_monitoring` first forces
the LED off and the subsequent toggle then always lights it. -/
theorem C5_toggle_counterexample :
    ¬((ble_handler toggle_demo_state (.write 1 "toggle")).1.led =
        !toggle_demo_state.led) := by decide

/-- C5 amended: `toggle` from a registered connection disables
monitoring and always leaves the LED on, with response `on`
reflecting the new level. -/
theorem C5_toggle_amended (s : DeviceState) (conn_handle : Nat)
    (h : dictContains s.connected_devices conn_handle = true) :
    ble_handler s (.write conn_handle "toggle") =
      ({ s with rssi_blink_active := false, led := true },
        [(conn_handle, "on")]) := by
  simp only [ble_handler, if_pos h]
  rfl

/-- Witness for the amended C5 at a concrete lit, active state. -/
theorem C5_toggle_amended_witness :
    ble_handler toggle_demo_state (.write 1 "toggle") =
      ({ toggle_demo_state with rssi_blink_active := false, led := true },
        [(1, "on")]) :=
  C5_toggle_amended toggle_demo_state 1 (by decide)

/-- C6 fails on the code: the payload `1:2` of `rssi:1:2` does not
parse as an integer, yet the command updates the reading to 1 and
answers `rssi_updated:1` instead of `rssi_error`, because the code
parses only the text between the first and second colon. -/
theorem C6_rssi_parse_counterexample :
    pyIntParse "1:2" = none ∧
    (ble_handler rssi_demo_state (.write 1 "rssi:1:2")).1.current_rssi = 1 ∧
    (ble_handler rssi_demo_state (.write 1 "rssi:1:2")).2 =
      [(1, "rssi_updated:1")] ∧
    rssi_demo_state.current_rssi ≠ 1 := by decide

/-- C6 amended: for a command starting with `rssi:`, the segment
between the first and second colon is parsed; on success the reading
becomes that integer with response `rssi_updated:<n>`, otherwise the
state is unchanged with response `rssi_error`. -/
theorem C6_rssi_parse_amended (s : DeviceState) (command : String)
    (hpre : py_startswith command "rssi:" = true) :
    (∀ n : Int, pyIntParse ((py_split command ':').getD 1 "") = some n →
      interpret_command s command = ({ s with current_rssi := n },
        "rssi_updated:" ++ toString n)) ∧
    (pyIntParse ((py_split command ':').getD 1 "") = none →
      interpret_command s command = (s, "rssi_error")) := by
  have hne1 : ¬(command = "1" ∨ command = "on") := by
    rintro (rfl | rfl) <;> exact absurd hpre (by decide)
  have hne2 : ¬(command = "0" ∨ command = "off") := by
    rintro (rfl | rfl) <;> exact absurd hpre (by decide)
  have hne3 : command ≠ "toggle" := by
    rintro rfl; exact absurd hpre (by decide)
  have hne4 : command ≠ "unlock" := by
    rintro rfl; exact absurd hpre (by decide)
  have hne5 : command ≠ "lock" := by
    rintro rfl; exact absurd hpre (by decide)
  have hne6 : command ≠ "start_rssi" := by
    rintro rfl; exact absurd hpre (by decide)
  have hne7 : command ≠ "stop_rssi" := by
    rintro rfl; exact absurd hpre (by decide)
  constructor
  · intro n hn
    unfold interpret_command
    rw [if_neg hne1, if_neg hne2, if_neg hne3, if_neg hne4, if_neg hne5,
      if_neg hne6, if_neg hne7, if_pos hpre, hn]
    rfl
  · intro hn
    unfold interpret_command
    rw [if_neg hne1, if_neg hne2, if_neg hne3, if_neg hne4, if_neg hne5,
      if_neg hne6, if_neg hne7, if_pos hpre, hn]

/-- Witness for the amended C6 at the concrete command `rssi:-72`. -/
theorem C6_rssi_parse_amended_witness :
    interpret_command rssi_demo_state "rssi:-72" =
      ({ rssi_demo_state with current_rssi := -72 }, "rssi_updated:-72") :=
  (C6_rssi_parse_amended rssi_demo_state "rssi:-72" (by decide)).1 (-72)
    (by decide)

/-- C7: a disconnect event never changes the relay, as the
unlock-lock-unlock-disconnect scenario illustrates. -/
theorem C7_disconnect_preserves_relay :
    (∀ (s : DeviceState) (conn_handle : Nat),
      (ble_handler s (.disconnect conn_handle)).1.relay_pin = s.relay_pin) ∧
    (run_events [BleEvent.connect 1 [170, 187, 204, 221, 238, 255],
        BleEvent.write 1 "unlock", BleEvent.write 1 "lock",
        BleEvent.write 1 "unlock", BleEvent.disconnect 1]).relay_pin =
      true := by
  constructor
  · intro s conn_handle
    simp only [ble_handler]
    split <;> rfl
  · decide

/-- C8: a write event from a handle that is not registered produces no
notification and no state change at all. -/
theorem C8_unknown_handle_ignored (s : DeviceState) (conn_handle : Nat)
    (value : String)
    (h : dictContains s.connected_devices conn_handle = false) :
    ble_handler s (.write conn_handle value) = (s, []) := by
  simp [ble_handler, h]

/-- Witness for C8 at the startup state and an unknown handle. -/
theorem C8_unknown_handle_ignored_witness :
    ble_handler init_state (.write 7 "unlock") = (init_state, []) :=
  C8_unknown_handle_ignored init_state 7 "unlock" (by decide)

/-- C9: the shutdown routine leaves the LED, relay and buzzer off and
monitoring disabled, from every state. -/
theorem C9_shutdown_safe_state (s : DeviceState) :
    (shutdown_handler s).led = false ∧
    (shutdown_handler s).relay_pin = false ∧
    (shutdown_handler s).buzzer_pin = false ∧
    (shutdown_handler s).rssi_blink_active = false :=
  ⟨rfl, rfl, rfl, rfl⟩

/-- C10: a connect event always ends with the LED off, while the
monitoring flag, the relay and the last reading are untouched. -/
theorem C10_connect_led_off_frame (s : DeviceState) (conn_handle : Nat)
    (addr : List Nat) :
    (ble_handler s (.connect conn_handle addr)).1.led = false ∧
    (ble_handler s (.connect conn_handle addr)).1.rssi_blink_active =
      s.rssi_blink_active ∧
    (ble_handler s (.connect conn_handle addr)).1.relay_pin = s.relay_pin ∧
    (ble_handler s (.connect conn_handle addr)).1.current_rssi =
      s.current_rssi :=
  ⟨rfl, rfl, rfl, rfl⟩
